import Mathlib

/-!
Verification of the DRM/KMS video output module
(modules/video_output/drm_display.c).

The development shallowly embeds the pieces of the module that the
properties below are about:

* the static fourcc matching catalog and its discovery marking
  (`fourccmatching`, `CheckFourCCList`);
* the format/plane negotiation (`ChromaNegotiation`, transcribing the
  forced-format branch and the three fallback scan loops, including the
  fact that the loop counter `c` is not reset before the last loop);
* the per-buffer layout computation of `CreateFB` (`fbLayout`);
* the device-resource life cycle of `CreateFB` / `DestroyFB` / the
  buffer ring loop of `Open`, modelled as traces of device calls acting
  on a per-ring-index resource state;
* the presentation step `Display`.

Machine integers are modelled as `Nat`; the fourcc codes are the exact
32-bit little-endian character codes used by the C source.
-/

/-- Result type of the device helpers, transcribing
`typedef enum { drvSuccess, drvTryNext, drvFail } deviceRval;`. -/
inductive deviceRval where
  | drvSuccess
  | drvTryNext
  | drvFail
deriving DecidableEq, Repr

/-- Integer value of a `deviceRval` enum constant (C enums number from 0). -/
def deviceRvalToInt : deviceRval → Int
  | .drvSuccess => 0
  | .drvTryNext => 1
  | .drvFail => 2

/-- Number of hardware buffers in the page-flip ring (`#define MAXHWBUF 3`). -/
def MAXHWBUF : Nat := 3

/-- Number of picture planes of the externally visible image view
(`PICTURE_PLANE_MAX` is 5 in the VLC headers). -/
def PICTURE_PLANE_MAX : Nat := 5

/-- Little-endian four-character code, as laid out by the C
`fourcc_code`/`VLC_FOURCC` macros. -/
def fourcc (a b c d : Nat) : Nat := a + 256 * (b + 256 * (c + 256 * d))

/-- DRM code 'XR24'. -/
def DRM_FORMAT_XRGB8888 : Nat := fourcc 88 82 50 52
/-- DRM code 'RG16'. -/
def DRM_FORMAT_RGB565 : Nat := fourcc 82 71 49 54
/-- DRM code 'P010'. -/
def DRM_FORMAT_P010 : Nat := fourcc 80 48 49 48
/-- DRM code 'P012'. -/
def DRM_FORMAT_P012 : Nat := fourcc 80 48 49 50
/-- DRM code 'P016'. -/
def DRM_FORMAT_P016 : Nat := fourcc 80 48 49 54
/-- DRM code 'NV12'. -/
def DRM_FORMAT_NV12 : Nat := fourcc 78 86 49 50
/-- DRM code 'YUYV'. -/
def DRM_FORMAT_YUYV : Nat := fourcc 89 85 89 86
/-- DRM code 'YVYU'. -/
def DRM_FORMAT_YVYU : Nat := fourcc 89 86 89 85
/-- DRM code 'UYVY'. -/
def DRM_FORMAT_UYVY : Nat := fourcc 85 89 86 89
/-- DRM code 'VYUY'. -/
def DRM_FORMAT_VYUY : Nat := fourcc 86 89 85 89

/-- VLC code 'RV32'. -/
def VLC_CODEC_RGB32 : Nat := fourcc 82 86 51 50
/-- VLC code 'RV16'. -/
def VLC_CODEC_RGB16 : Nat := fourcc 82 86 49 54
/-- VLC code 'P010'. -/
def VLC_CODEC_P010 : Nat := fourcc 80 48 49 48
/-- VLC code 'NV12'. -/
def VLC_CODEC_NV12 : Nat := fourcc 78 86 49 50
/-- VLC code 'YUY2'. -/
def VLC_CODEC_YUYV : Nat := fourcc 89 85 89 50
/-- VLC code 'YVYU'. -/
def VLC_CODEC_YVYU : Nat := fourcc 89 86 89 85
/-- VLC code 'UYVY'. -/
def VLC_CODEC_UYVY : Nat := fourcc 85 89 86 89
/-- VLC code 'VYUY'. -/
def VLC_CODEC_VYUY : Nat := fourcc 86 89 85 89
/-- VLC code 'I420' (a planar YUV format that has no entry in the catalog). -/
def VLC_CODEC_I420 : Nat := fourcc 73 52 50 48

/-- VLC success return code. -/
def VLC_SUCCESS : Int := 0
/-- VLC generic error return code. -/
def VLC_EGENERIC : Int := -2

/-- Entry of the static `fourccmatching[]` table: a DRM fourcc, the
matching VLC fourcc, the plane the DRM code was discovered on, whether
it was discovered at all, and its chroma family flag. -/
structure FourccEntry where
  drm : Nat
  vlc : Nat
  plane_id : Nat
  present : Bool
  isYUV : Bool
deriving DecidableEq, Inhabited, Repr

/-- Static initializer of `fourccmatching[]`: the two RGB entries first,
then the YUV entries, in order of preference; `plane_id` and `present`
are zero-initialized. -/
def fourccmatching : List FourccEntry :=
  [ { drm := DRM_FORMAT_XRGB8888, vlc := VLC_CODEC_RGB32,
      plane_id := 0, present := false, isYUV := false },
    { drm := DRM_FORMAT_RGB565, vlc := VLC_CODEC_RGB16,
      plane_id := 0, present := false, isYUV := false },
    { drm := DRM_FORMAT_P010, vlc := VLC_CODEC_P010,
      plane_id := 0, present := false, isYUV := true },
    { drm := DRM_FORMAT_NV12, vlc := VLC_CODEC_NV12,
      plane_id := 0, present := false, isYUV := true },
    { drm := DRM_FORMAT_YUYV, vlc := VLC_CODEC_YUYV,
      plane_id := 0, present := false, isYUV := true },
    { drm := DRM_FORMAT_YVYU, vlc := VLC_CODEC_YVYU,
      plane_id := 0, present := false, isYUV := true },
    { drm := DRM_FORMAT_UYVY, vlc := VLC_CODEC_UYVY,
      plane_id := 0, present := false, isYUV := true },
    { drm := DRM_FORMAT_VYUY, vlc := VLC_CODEC_VYUY,
      plane_id := 0, present := false, isYUV := true } ]

/-- Transcription of `CheckFourCCList(drmfourcc, plane_id)`: walk the
catalog; at the first entry whose `drm` code matches, stop — if the
entry is already `present` keep the earlier findings, otherwise mark it
`present` and record the plane id.  Entries after the first match are
never visited (the loop breaks). -/
def CheckFourCCList (drmfourcc plane_id : Nat) : List FourccEntry → List FourccEntry
  | [] => []
  | e :: rest =>
    if e.drm == drmfourcc then
      if e.present then
        e :: rest
      else
        { e with present := true, plane_id := plane_id } :: rest
    else
      e :: CheckFourCCList drmfourcc plane_id rest

/-- Index of the first entry satisfying the predicate. -/
def findFirstIdx (p : FourccEntry → Bool) : List FourccEntry → Option Nat
  | [] => none
  | e :: rest => if p e then some 0 else (findFirstIdx p rest).map (· + 1)

/-- Restatement of the spec's `markPresent` contract in terms of the
first matching index: set `present` and `plane_id` on the first catalog
entry matching the hardware code, only if that entry is not already
present; modify no other entry. -/
def markPresent_spec (drmfourcc plane_id : Nat) (cat : List FourccEntry) :
    List FourccEntry :=
  match findFirstIdx (fun e => e.drm == drmfourcc) cat with
  | none => cat
  | some i =>
    let e := cat.getD i default
    if e.present then cat
    else cat.set i { e with present := true, plane_id := plane_id }

/-- Computed stride, second-plane offset and allocation height of one
hardware buffer. -/
structure Layout where
  stride : Nat
  offset1 : Nat
  allocHeight : Nat
deriving DecidableEq, Repr

/-- Modelled from the spec: the row/height alignment helper `vlc_align`
(from the VLC headers, outside this module) rounds its first argument up
to the next multiple of the second. -/
def vlc_align (x a : Nat) : Nat := (x + a - 1) / a * a

/-- Hardware tile width used by `CreateFB` (`tile_width = 512`). -/
def tile_width : Nat := 512
/-- Hardware tile height used by `CreateFB` (`tile_height = 16`). -/
def tile_height : Nat := 16

/-- Transcription of the layout switch at the top of `CreateFB`:
P010/P012/P016 share one case, NV12 has its own, and the default case
covers every other fourcc.  The second plane offset stays at its
zero-initialized value in the default case. -/
def fbLayout (drm_fourcc width height : Nat) : Layout :=
  if drm_fourcc = DRM_FORMAT_P010 ∨ drm_fourcc = DRM_FORMAT_P012 ∨
      drm_fourcc = DRM_FORMAT_P016 then
    { stride := vlc_align (width * 2) tile_width,
      offset1 := vlc_align (width * 2) tile_width * vlc_align height tile_height,
      allocHeight := 2 * vlc_align height tile_height }
  else if drm_fourcc = DRM_FORMAT_NV12 then
    { stride := vlc_align width tile_width,
      offset1 := vlc_align width tile_width * vlc_align height tile_height,
      allocHeight := 2 * vlc_align height tile_height }
  else
    { stride := vlc_align (width * 4) tile_width,
      offset1 := 0,
      allocHeight := vlc_align height tile_height }

/-- Layout class named by the specification. -/
inductive LayoutClass where
  | defaultPacked
  | subsampled8
  | subsampledWide
deriving DecidableEq, Repr

/-- Family classification used by the specification's layout rules:
NV12 is the two-plane subsampled 8-bit class, P010/P012/P016 the
two-plane subsampled wide class, everything else the packed default. -/
def classifyFourcc (drm_fourcc : Nat) : LayoutClass :=
  if drm_fourcc = DRM_FORMAT_P010 ∨ drm_fourcc = DRM_FORMAT_P012 ∨
      drm_fourcc = DRM_FORMAT_P016 then
    .subsampledWide
  else if drm_fourcc = DRM_FORMAT_NV12 then
    .subsampled8
  else
    .defaultPacked

/-- Restatement of the spec's sizing/layout algorithm, one clause per
spec bullet. -/
def specLayout : LayoutClass → Nat → Nat → Layout
  | .defaultPacked, width, height =>
    { stride := vlc_align (width * 4) 512,
      offset1 := 0,
      allocHeight := vlc_align height 16 }
  | .subsampled8, width, height =>
    { stride := vlc_align width 512,
      offset1 := vlc_align width 512 * vlc_align height 16,
      allocHeight := 2 * vlc_align height 16 }
  | .subsampledWide, width, height =>
    { stride := vlc_align (width * 2) 512,
      offset1 := vlc_align (width * 2) 512 * vlc_align height 16,
      allocHeight := 2 * vlc_align height 16 }

/-- C7: the layout computed by `CreateFB` agrees, for every width,
height and negotiated hardware format, with the specification's
family-keyed sizing rules: packed default gets stride
`align(width*4, 512)`, a single plane at offset 0 and allocation height
`align(height, 16)`; NV12 gets stride `align(width, 512)`; the wide
P01x formats get stride `align(width*2, 512)`; both subsampled classes
place the chroma plane at `stride * align(height, 16)` and allocate
`2 * align(height, 16)` rows. -/
theorem createFB_layout_matches_spec (drm_fourcc width height : Nat) :
    fbLayout drm_fourcc width height =
      specLayout (classifyFourcc drm_fourcc) width height := by
  unfold fbLayout classifyFourcc specLayout tile_width tile_height
  split_ifs <;> rfl

/-- C9: `CheckFourCCList` implements the spec's `markPresent` contract —
it rewrites exactly the first entry whose hardware code matches, and
only when that entry is not yet present (recording the given plane id);
an already-present entry, and every other entry, is left untouched, so
a second call for the same hardware code (with any plane id) is a
no-op and the recorded plane id stays the first one discovered. -/
theorem checkFourCCList_markPresent (drmfourcc plane_id plane_id2 : Nat)
    (cat : List FourccEntry) :
    CheckFourCCList drmfourcc plane_id cat =
        markPresent_spec drmfourcc plane_id cat ∧
    CheckFourCCList drmfourcc plane_id2
        (CheckFourCCList drmfourcc plane_id cat) =
      CheckFourCCList drmfourcc plane_id cat := by
  constructor
  · induction cat with
    | nil => rfl
    | cons e rest ih =>
      by_cases he : (e.drm == drmfourcc) = true
      · simp only [CheckFourCCList, markPresent_spec, findFirstIdx, he, if_true]
        by_cases hp : e.present = true
        · simp [hp]
        · simp [hp, List.set]
      · simp only [CheckFourCCList, markPresent_spec, findFirstIdx, he] at ih ⊢
        simp only [Bool.false_eq_true, if_false]
        cases hfi : findFirstIdx (fun x => x.drm == drmfourcc) rest with
        | none =>
          simp only [hfi, Option.map_none'] at ih ⊢
          rw [ih]
        | some i =>
          simp only [hfi, Option.map_some'] at ih ⊢
          simp only [List.getD_cons_succ, List.set_cons_succ]
          rw [ih]
          split <;> rfl
  · induction cat with
    | nil => rfl
    | cons e rest ih =>
      by_cases he : (e.drm == drmfourcc) = true
      · by_cases hp : e.present = true
        · simp [CheckFourCCList, he, hp]
        · simp [CheckFourCCList, he, hp]
      · simp [CheckFourCCList, he, ih]

/-- Effectful device calls issued by the buffer life-cycle code, each
tagged with the ring index it concerns: the three acquisitions of
`CreateFB` (`DRM_IOCTL_MODE_CREATE_DUMB`, `drmModeAddFB2`, `mmap`) and
the three matching releases (`DRM_IOCTL_MODE_DESTROY_DUMB`,
`drmModeRmFB`, `munmap`). -/
inductive DevCall where
  | createDumb (buf : Nat)
  | addFB (buf : Nat)
  | mapBuf (buf : Nat)
  | destroyDumb (buf : Nat)
  | rmFB (buf : Nat)
  | munmapBuf (buf : Nat)
deriving DecidableEq, Repr

/-- Calls that acquire a device resource. -/
def isAcquireCall : DevCall → Bool
  | .createDumb _ => true
  | .addFB _ => true
  | .mapBuf _ => true
  | _ => false

/-- Calls that release a device resource. -/
def isReleaseCall (c : DevCall) : Bool := !(isAcquireCall c)

/-- Release call matching an acquisition call. -/
def dualCall : DevCall → DevCall
  | .createDumb b => .destroyDumb b
  | .addFB b => .rmFB b
  | .mapBuf b => .munmapBuf b
  | c => c

/-- Test for a device-memory allocation call. -/
def isCreateDumbCall : DevCall → Bool
  | .createDumb _ => true
  | _ => false

/-- Resources held for one ring index: the dumb-buffer handle, the
framebuffer object bound over it, and the process mapping. -/
structure BufState where
  dumb : Bool
  fb : Bool
  mapped : Bool
deriving DecidableEq, Repr

/-- No resource held (the state of a freshly `calloc`ed session). -/
def emptyBuf : BufState := ⟨false, false, false⟩

/-- All three resources held (a fully constructed frame buffer). -/
def fullBuf : BufState := ⟨true, true, true⟩

/-- Effect of one device call on the per-ring-index resource state. -/
def devApply (s : Nat → BufState) (c : DevCall) : Nat → BufState :=
  fun j =>
    match c with
    | .createDumb b => if j = b then { s j with dumb := true } else s j
    | .addFB b => if j = b then { s j with fb := true } else s j
    | .mapBuf b => if j = b then { s j with mapped := true } else s j
    | .destroyDumb b => if j = b then { s j with dumb := false } else s j
    | .rmFB b => if j = b then { s j with fb := false } else s j
    | .munmapBuf b => if j = b then { s j with mapped := false } else s j

/-- Resource state after a trace of device calls. -/
def applyTrace (s : Nat → BufState) (tr : List DevCall) : Nat → BufState :=
  tr.foldl devApply s

/-- Outcome of the four fallible device calls inside one `CreateFB`
invocation: the dumb-buffer creation ioctl, `drmModeAddFB2`, the
`DRM_IOCTL_MODE_MAP_DUMB` ioctl, and the `mmap` call. -/
structure FBOracle where
  createOk : Bool
  addFBOk : Bool
  mapReqOk : Bool
  mmapOk : Bool
deriving DecidableEq, Repr

/-- Calls issued from the `err_destroy:` label of `CreateFB`: destroy
the dumb buffer. -/
def err_destroy (buf : Nat) : List DevCall := [.destroyDumb buf]

/-- Calls issued from the `err_fb:` label of `CreateFB`: remove the
framebuffer object, then fall through to `err_destroy:`. -/
def err_fb (buf : Nat) : List DevCall := .rmFB buf :: err_destroy buf

/-- Transcription of the resource behaviour of `CreateFB(vd, buf)`:
create the dumb buffer (plain failure return, nothing held); bind the
framebuffer object (on failure `goto err_destroy`); request the map
offset and `mmap` (on failure of either `goto err_fb`).  Returns the
function result together with the trace of effectful device calls. -/
def CreateFB (o : FBOracle) (buf : Nat) : deviceRval × List DevCall :=
  if !o.createOk then
    (.drvFail, [])
  else if !o.addFBOk then
    (.drvFail, .createDumb buf :: err_destroy buf)
  else if !o.mapReqOk then
    (.drvFail, .createDumb buf :: .addFB buf :: err_fb buf)
  else if !o.mmapOk then
    (.drvFail, .createDumb buf :: .addFB buf :: err_fb buf)
  else
    (.drvSuccess, [.createDumb buf, .addFB buf, .mapBuf buf])

/-- Transcription of `DestroyFB(vd, buf)`: `munmap`, `drmModeRmFB`,
destroy the dumb buffer, in that order, unconditionally. -/
def DestroyFB (buf : Nat) : List DevCall :=
  [.munmapBuf buf, .rmFB buf, .destroyDumb buf]

/-- Buffer-ring construction loop of `Open`: for each ring index `c`,
call `CreateFB`; on failure, destroy the buffers at indices `0..c-1`
and return the failing result.  `c` is the next index, `r` the number
of indices still to construct, `acc` the calls issued so far. -/
def openLoopGo (o : Nat → FBOracle) (c : Nat) :
    Nat → List DevCall → deviceRval × List DevCall
  | 0, acc => (.drvSuccess, acc)
  | r + 1, acc =>
    let rt := CreateFB (o c) c
    if rt.1 ≠ .drvSuccess then
      (rt.1, acc ++ rt.2 ++ (List.range c).flatMap DestroyFB)
    else
      openLoopGo o (c + 1) r (acc ++ rt.2)

/-- The `for (c = 0; c < MAXHWBUF; c++)` construction loop of `Open`. -/
def openLoop (o : Nat → FBOracle) : deviceRval × List DevCall :=
  openLoopGo o 0 MAXHWBUF []

/-- Plane descriptor as consumed by the scanning loop of
`ChromaNegotiation`: the plane id and the supported format list (the
planes listed are those that survived the CRTC filter). -/
structure DrmPlane where
  plane_id : Nat
  formats : List Nat
deriving DecidableEq, Repr

/-- Negotiation-relevant fields of `vout_display_sys_t`. -/
structure Sys where
  catalog : List FourccEntry
  forced_drm_fourcc : Bool
  drm_fourcc : Nat
  vlc_fourcc : Nat
  plane_id : Nat
deriving DecidableEq, Repr

/-- Inner format loop of the plane scan (lines 335-341 of the source):
every supported format is folded into the catalog via
`CheckFourCCList`, and if a hardware format override is active, no
plane has been chosen yet, and this plane supports exactly the forced
format, the plane selection is bound to this plane. -/
def scanFormats (forced : Bool) (drmF pid : Nat) :
    List Nat → List FourccEntry × Nat → List FourccEntry × Nat
  | [], st => st
  | f :: rest, (cat, plid) =>
    let cat' := CheckFourCCList f pid cat
    let plid' := if forced && (plid == 0) && (f == drmF) then pid else plid
    scanFormats forced drmF pid rest (cat', plid')

/-- Outer plane loop of the scan: fold every usable plane's format list
into the catalog / plane-selection state. -/
def scanPlanes (forced : Bool) (drmF : Nat) :
    List DrmPlane → List FourccEntry × Nat → List FourccEntry × Nat
  | [], st => st
  | p :: rest, st =>
    scanPlanes forced drmF rest (scanFormats forced drmF p.plane_id p.formats st)

/-- Tail of the catalog examined by the last fallback loop of
`ChromaNegotiation`.  In the source the loop is
`for (i = 0; c < ARRAY_SIZE(fourccmatching); c++)`; the counter `c` is
not reset after the previous loop ran to completion, so the scan starts
past the end of the table — this definition keeps that behaviour by
dropping `cat.length` elements. -/
def tier4remainder (cat : List FourccEntry) : List FourccEntry :=
  cat.drop cat.length

/-- Decision part of `ChromaNegotiation` (lines 365-427), operating on
the post-scan state.  The forced-hardware-format branch derives the
logical format from the catalog and fails if no plane was bound; the
first loop looks for the entry matching the desired logical format and
returns from inside the loop body whenever it matches (failing when
`drm_fourcc` is still zero); the second loop adopts the first present
same-family entry; the third loop scans `tier4remainder` with the
condition `!isYUV != YUVFormat` of the source. -/
def negotiateTiers (s : Sys) (isYUVfn : Nat → Bool) : Bool × Sys :=
  if s.forced_drm_fourcc then
    let s1 :=
      match s.catalog.find? (fun e => e.drm == s.drm_fourcc) with
      | some e => { s with vlc_fourcc := e.vlc }
      | none => s
    if s1.plane_id == 0 then (false, s1) else (true, s1)
  else
    match s.catalog.find? (fun e => e.vlc == s.vlc_fourcc) with
    | some e =>
      let s1 :=
        if !s.forced_drm_fourcc && e.present then
          { s with drm_fourcc := e.drm, plane_id := e.plane_id }
        else s
      if s1.drm_fourcc == 0 then (false, s1) else (true, s1)
    | none =>
      let yuvFlag := isYUVfn s.vlc_fourcc
      match s.catalog.find? (fun e => (e.isYUV == yuvFlag) && e.present) with
      | some e =>
        let s1 :=
          if !s.forced_drm_fourcc then
            { s with drm_fourcc := e.drm, plane_id := e.plane_id }
          else s
        (true, { s1 with vlc_fourcc := e.vlc })
      | none =>
        match (tier4remainder s.catalog).find?
            (fun e => ((!e.isYUV) != yuvFlag) && e.present) with
        | some e =>
          let s1 :=
            if !s.forced_drm_fourcc then
              { s with drm_fourcc := e.drm, plane_id := e.plane_id }
            else s
          (true, { s1 with vlc_fourcc := e.vlc })
        | none => (false, s)

/-- Full `ChromaNegotiation`: reset the plane selection (line 302), run
the capability scan over the usable planes, then decide. -/
def ChromaNegotiation (planes : List DrmPlane) (s : Sys)
    (isYUVfn : Nat → Bool) : Bool × Sys :=
  let st := scanPlanes s.forced_drm_fourcc s.drm_fourcc planes (s.catalog, 0)
  negotiateTiers { s with catalog := st.1, plane_id := st.2 } isYUVfn

/-- Modelled from the spec: the chroma-family classifier
(`vlc_fourcc_IsYUV`, defined outside this module) — the YUV-family
logical formats appearing in this development map to true. -/
def isYUVmodel (f : Nat) : Bool :=
  f == VLC_CODEC_I420 || f == VLC_CODEC_NV12 || f == VLC_CODEC_P010 ||
  f == VLC_CODEC_YUYV || f == VLC_CODEC_YVYU || f == VLC_CODEC_UYVY ||
  f == VLC_CODEC_VYUY

/-- Resource-relevant behaviour of `Open`: negotiation first (on
failure, `Close` runs `DestroyFB` over the whole ring and `Open`
returns `VLC_EGENERIC`); then the buffer construction loop (on failure
its result is returned as is); then the staging-picture allocation,
whose failure jumps to the `error:` label, which returns
`VLC_EGENERIC` without issuing any device call. -/
def OpenModel (planes : List DrmPlane) (s : Sys) (isYUVfn : Nat → Bool)
    (o : Nat → FBOracle) (pictureOk : Bool) : Int × List DevCall :=
  if (ChromaNegotiation planes s isYUVfn).1 = false then
    (VLC_EGENERIC, (List.range MAXHWBUF).flatMap DestroyFB)
  else
    let r := openLoop o
    if r.1 ≠ .drvSuccess then
      (deviceRvalToInt r.1, r.2)
    else if pictureOk = false then
      (VLC_EGENERIC, r.2)
    else
      (VLC_SUCCESS, r.2)

/-- Unfolding step of the buffer construction loop. -/
theorem openLoopGo_succ (o : Nat → FBOracle) (c r : Nat) (acc : List DevCall) :
    openLoopGo o c (Nat.succ r) acc =
      if (CreateFB (o c) c).1 ≠ .drvSuccess then
        ((CreateFB (o c) c).1,
          acc ++ (CreateFB (o c) c).2 ++ (List.range c).flatMap DestroyFB)
      else
        openLoopGo o (c + 1) r (acc ++ (CreateFB (o c) c).2) := rfl

/-- Trace of a successful `CreateFB`: the three acquisitions. -/
theorem createFB_success_trace (o : FBOracle) (b : Nat)
    (h : (CreateFB o b).1 = .drvSuccess) :
    (CreateFB o b).2 = [.createDumb b, .addFB b, .mapBuf b] := by
  rcases o with ⟨co, ao, mo, mm⟩
  cases co <;> cases ao <;> cases mo <;> cases mm <;>
    simp_all [CreateFB, err_fb, err_destroy]

/-- Trace shapes of a failing `CreateFB`: nothing, the
`err_destroy:` unwind, or the `err_fb:` unwind. -/
theorem createFB_fail_cases (o : FBOracle) (b : Nat)
    (h : (CreateFB o b).1 ≠ .drvSuccess) :
    (CreateFB o b).2 = [] ∨
    (CreateFB o b).2 = [.createDumb b, .destroyDumb b] ∨
    (CreateFB o b).2 = [.createDumb b, .addFB b, .rmFB b, .destroyDumb b] := by
  rcases o with ⟨co, ao, mo, mm⟩
  cases co <;> cases ao <;> cases mo <;> cases mm <;>
    simp_all [CreateFB, err_fb, err_destroy]

/-- C3: per-buffer construction is all-or-nothing.  Whenever
`CreateFB` fails — in particular when the framebuffer-object bind or
the mapping step fails — the resource state after its device-call trace
equals the state before the call at every ring index, and the release
calls it issued are exactly the completed acquisitions, reversed and
replaced by their matching release (unbind for bind, free for
allocate; the mapping is the last step, so an unmap is never needed on
a failure path).  No device resource acquired during the failed call
remains held on any exit path. -/
theorem createFB_unwinds_on_failure (o : FBOracle) (buf : Nat)
    (s : Nat → BufState) (hs : s buf = emptyBuf)
    (hf : (CreateFB o buf).1 ≠ .drvSuccess) :
    (∀ i, applyTrace s (CreateFB o buf).2 i = s i) ∧
    (CreateFB o buf).2.filter isReleaseCall =
      (((CreateFB o buf).2.filter isAcquireCall).map dualCall).reverse := by
  rcases createFB_fail_cases o buf hf with ht | ht | ht <;>
    rw [ht] <;>
    refine ⟨fun i => ?_, by simp [isReleaseCall, isAcquireCall, dualCall]⟩ <;>
    by_cases hib : i = buf
  · rfl
  · rfl
  · subst hib; simp [applyTrace, devApply, hs]; rfl
  · simp [applyTrace, devApply, hib]
  · subst hib; simp [applyTrace, devApply, hs]; rfl
  · simp [applyTrace, devApply, hib]

/-- Witness for C3: a concrete run in which the framebuffer bind fails
leaves the initially empty state unchanged. -/
theorem createFB_unwinds_on_failure_witness :
    ((fun _ => emptyBuf : Nat → BufState) 0 = emptyBuf) ∧
    (CreateFB ⟨true, false, true, true⟩ 0).1 ≠ deviceRval.drvSuccess ∧
    applyTrace (fun _ => emptyBuf) (CreateFB ⟨true, false, true, true⟩ 0).2 0 =
      (fun _ => emptyBuf : Nat → BufState) 0 :=
  ⟨rfl, by decide,
    (createFB_unwinds_on_failure ⟨true, false, true, true⟩ 0
      (fun _ => emptyBuf) rfl (by decide)).1 0⟩

/-- C4: a buffer-creation failure at ring index `k` (with `0 < k <
MAXHWBUF`, after the earlier indices succeeded) makes the whole
construction loop fail, and afterwards zero buffers remain allocated:
starting from the empty session state, every ring index is back to
holding no device resource (the loop destroys indices `0..k-1` and the
failing `CreateFB` unwound index `k` itself). -/
theorem open_ring_failure_leaves_zero_buffers (o : Nat → FBOracle) (k : Nat)
    (hk0 : 0 < k) (hk : k < MAXHWBUF)
    (hsucc : ∀ j, j < k → (CreateFB (o j) j).1 = deviceRval.drvSuccess)
    (hfail : (CreateFB (o k) k).1 ≠ deviceRval.drvSuccess) :
    (openLoop o).1 ≠ deviceRval.drvSuccess ∧
    ∀ i, i < MAXHWBUF →
      applyTrace (fun _ => emptyBuf) (openLoop o).2 i = emptyBuf := by
  have hk' : k < 3 := hk
  interval_cases k
  · have h0 := hsucc 0 (by norm_num)
    have h0t := createFB_success_trace (o 0) 0 h0
    have e1 : openLoop o = openLoopGo o 1 (Nat.succ 1) ([] ++ (CreateFB (o 0) 0).2) := by
      show openLoopGo o 0 (Nat.succ 2) [] = _
      rw [openLoopGo_succ, if_neg (not_not_intro h0)]
    have e2 : openLoop o =
        ((CreateFB (o 1) 1).1,
          ([] ++ (CreateFB (o 0) 0).2) ++ (CreateFB (o 1) 1).2 ++
            (List.range 1).flatMap DestroyFB) := by
      rw [e1, openLoopGo_succ, if_pos hfail]
    have e2' : (openLoop o).2 =
        ([] ++ (CreateFB (o 0) 0).2) ++ (CreateFB (o 1) 1).2 ++
          (List.range 1).flatMap DestroyFB := by rw [e2]
    refine ⟨by rw [e2]; exact hfail, ?_⟩
    rcases createFB_fail_cases (o 1) 1 hfail with ht | ht | ht <;>
      rw [e2', h0t, ht] <;> intro i hi <;>
      have hi' : i < 3 := hi <;> interval_cases i <;> decide
  · have h0 := hsucc 0 (by norm_num)
    have h1 := hsucc 1 (by norm_num)
    have h0t := createFB_success_trace (o 0) 0 h0
    have h1t := createFB_success_trace (o 1) 1 h1
    have e1 : openLoop o = openLoopGo o 1 (Nat.succ 1) ([] ++ (CreateFB (o 0) 0).2) := by
      show openLoopGo o 0 (Nat.succ 2) [] = _
      rw [openLoopGo_succ, if_neg (not_not_intro h0)]
    have e2 : openLoop o =
        openLoopGo o 2 (Nat.succ 0)
          (([] ++ (CreateFB (o 0) 0).2) ++ (CreateFB (o 1) 1).2) := by
      rw [e1, openLoopGo_succ, if_neg (not_not_intro h1)]
    have e3 : openLoop o =
        ((CreateFB (o 2) 2).1,
          (([] ++ (CreateFB (o 0) 0).2) ++ (CreateFB (o 1) 1).2) ++
            (CreateFB (o 2) 2).2 ++ (List.range 2).flatMap DestroyFB) := by
      rw [e2, openLoopGo_succ, if_pos hfail]
    have e3' : (openLoop o).2 =
        (([] ++ (CreateFB (o 0) 0).2) ++ (CreateFB (o 1) 1).2) ++
          (CreateFB (o 2) 2).2 ++ (List.range 2).flatMap DestroyFB := by rw [e3]
    refine ⟨by rw [e3]; exact hfail, ?_⟩
    rcases createFB_fail_cases (o 2) 2 hfail with ht | ht | ht <;>
      rw [e3', h0t, h1t, ht] <;> intro i hi <;>
      have hi' : i < 3 := hi <;> interval_cases i <;> decide

/-- Witness for C4: buffers 0 succeeds, the framebuffer bind of buffer
1 fails; the loop fails and index 0 is back to empty. -/
theorem open_ring_failure_leaves_zero_buffers_witness :
    (0 : Nat) < 1 ∧ (1 : Nat) < MAXHWBUF ∧
    (openLoop (fun n => if n = 0 then ⟨true, true, true, true⟩
        else ⟨true, false, true, true⟩)).1 ≠ deviceRval.drvSuccess ∧
    applyTrace (fun _ => emptyBuf)
      (openLoop (fun n => if n = 0 then ⟨true, true, true, true⟩
        else ⟨true, false, true, true⟩)).2 0 = emptyBuf :=
  ⟨by decide, by decide,
    (open_ring_failure_leaves_zero_buffers
      (fun n => if n = 0 then ⟨true, true, true, true⟩
        else ⟨true, false, true, true⟩) 1 (by decide) (by decide)
      (by intro j hj; rw [Nat.lt_one_iff] at hj; subst hj; decide)
      (by decide)).1,
    (open_ring_failure_leaves_zero_buffers
      (fun n => if n = 0 then ⟨true, true, true, true⟩
        else ⟨true, false, true, true⟩) 1 (by decide) (by decide)
      (by intro j hj; rw [Nat.lt_one_iff] at hj; subst hj; decide)
      (by decide)).2 0 (by decide)⟩

/-- C10: session construction is not atomic on the staging-picture
path.  In a concrete run where negotiation succeeds (RGB32 source,
XRGB8888 present on plane 1), all three buffers are constructed, and
the staging-picture allocation then fails, `Open` returns failure while
all three ring indices still hold their dumb buffer, framebuffer object
and mapping — and exactly `MAXHWBUF` device-memory allocations were
performed with no matching free. -/
theorem open_picture_failure_leaks_buffers :
    (OpenModel [⟨1, [DRM_FORMAT_XRGB8888]⟩]
        ⟨fourccmatching, false, 0, VLC_CODEC_RGB32, 0⟩ isYUVmodel
        (fun _ => ⟨true, true, true, true⟩) false).1 ≠ VLC_SUCCESS ∧
    applyTrace (fun _ => emptyBuf)
      (OpenModel [⟨1, [DRM_FORMAT_XRGB8888]⟩]
        ⟨fourccmatching, false, 0, VLC_CODEC_RGB32, 0⟩ isYUVmodel
        (fun _ => ⟨true, true, true, true⟩) false).2 0 = fullBuf ∧
    applyTrace (fun _ => emptyBuf)
      (OpenModel [⟨1, [DRM_FORMAT_XRGB8888]⟩]
        ⟨fourccmatching, false, 0, VLC_CODEC_RGB32, 0⟩ isYUVmodel
        (fun _ => ⟨true, true, true, true⟩) false).2 1 = fullBuf ∧
    applyTrace (fun _ => emptyBuf)
      (OpenModel [⟨1, [DRM_FORMAT_XRGB8888]⟩]
        ⟨fourccmatching, false, 0, VLC_CODEC_RGB32, 0⟩ isYUVmodel
        (fun _ => ⟨true, true, true, true⟩) false).2 2 = fullBuf ∧
    ((OpenModel [⟨1, [DRM_FORMAT_XRGB8888]⟩]
        ⟨fourccmatching, false, 0, VLC_CODEC_RGB32, 0⟩ isYUVmodel
        (fun _ => ⟨true, true, true, true⟩) false).2.filter
      (fun c => !(isCreateDumbCall c))).all isAcquireCall = true ∧
    (OpenModel [⟨1, [DRM_FORMAT_XRGB8888]⟩]
        ⟨fourccmatching, false, 0, VLC_CODEC_RGB32, 0⟩ isYUVmodel
        (fun _ => ⟨true, true, true, true⟩) false).2.countP isCreateDumbCall =
      MAXHWBUF := by
  decide

/-- Helper: the format loop never binds the plane selection when the
forced hardware format is not among the scanned formats. -/
theorem scanFormats_plane_id (forced : Bool) (drmF pid : Nat)
    (fs : List Nat) (st : List FourccEntry × Nat) (h : drmF ∉ fs) :
    (scanFormats forced drmF pid fs st).2 = st.2 := by
  induction fs generalizing st with
  | nil => rfl
  | cons f rest ih =>
    rcases st with ⟨cat, plid⟩
    simp only [List.mem_cons, not_or] at h
    have hne : (f == drmF) = false := by
      simp only [beq_eq_false_iff_ne]
      exact fun e => h.1 e.symm
    simp only [scanFormats, hne, Bool.and_false]
    exact ih _ h.2

/-- Helper: the plane scan never binds the plane selection when no
scanned plane supports the forced hardware format. -/
theorem scanPlanes_plane_id (forced : Bool) (drmF : Nat)
    (planes : List DrmPlane) (st : List FourccEntry × Nat)
    (h : ∀ p ∈ planes, drmF ∉ p.formats) :
    (scanPlanes forced drmF planes st).2 = st.2 := by
  induction planes generalizing st with
  | nil => rfl
  | cons p rest ih =>
    simp only [scanPlanes]
    rw [ih _ (fun q hq => h q (List.mem_cons_of_mem _ hq)),
        scanFormats_plane_id _ _ _ _ _ (h p (List.mem_cons_self _ _))]

/-- C6: when a hardware-format override is active and no scanned plane
supports that exact format, the plane selection is never bound, so
negotiation fails, `Open` fails, and no buffer is created — the device
calls issued by `Open` contain zero dumb-buffer allocations. -/
theorem forced_fourcc_unavailable_fails (planes : List DrmPlane) (s : Sys)
    (isYUVfn : Nat → Bool) (o : Nat → FBOracle) (pictureOk : Bool)
    (hforce : s.forced_drm_fourcc = true)
    (hnone : ∀ p ∈ planes, s.drm_fourcc ∉ p.formats) :
    (ChromaNegotiation planes s isYUVfn).1 = false ∧
    (OpenModel planes s isYUVfn o pictureOk).1 ≠ VLC_SUCCESS ∧
    (OpenModel planes s isYUVfn o pictureOk).2.countP isCreateDumbCall = 0 := by
  have hpid : (scanPlanes s.forced_drm_fourcc s.drm_fourcc planes
      (s.catalog, 0)).2 = 0 :=
    scanPlanes_plane_id _ _ _ _ hnone
  have hpid' : (scanPlanes true s.drm_fourcc planes (s.catalog, 0)).2 = 0 := by
    rw [← hforce]; exact hpid
  have hneg : (ChromaNegotiation planes s isYUVfn).1 = false := by
    simp only [ChromaNegotiation, negotiateTiers, hforce, if_true]
    cases hfind : (scanPlanes true s.drm_fourcc planes
        (s.catalog, 0)).1.find? (fun e => e.drm == s.drm_fourcc) <;>
      simp [hfind, hpid']
  have hOpen : OpenModel planes s isYUVfn o pictureOk =
      (VLC_EGENERIC, (List.range MAXHWBUF).flatMap DestroyFB) := by
    simp [OpenModel, hneg]
  refine ⟨hneg, ?_, ?_⟩ <;> rw [hOpen] <;> decide

/-- Witness for C6: a forced XRGB8888 override with a single plane that
only supports NV12 makes negotiation and `Open` fail with zero
allocations. -/
theorem forced_fourcc_unavailable_fails_witness :
    DRM_FORMAT_XRGB8888 ∉ [DRM_FORMAT_NV12] ∧
    (ChromaNegotiation [⟨7, [DRM_FORMAT_NV12]⟩]
        ⟨fourccmatching, true, DRM_FORMAT_XRGB8888, 0, 0⟩ isYUVmodel).1 =
      false ∧
    (OpenModel [⟨7, [DRM_FORMAT_NV12]⟩]
        ⟨fourccmatching, true, DRM_FORMAT_XRGB8888, 0, 0⟩ isYUVmodel
        (fun _ => ⟨true, true, true, true⟩) true).1 ≠ VLC_SUCCESS ∧
    (OpenModel [⟨7, [DRM_FORMAT_NV12]⟩]
        ⟨fourccmatching, true, DRM_FORMAT_XRGB8888, 0, 0⟩ isYUVmodel
        (fun _ => ⟨true, true, true, true⟩) true).2.countP isCreateDumbCall =
      0 :=
  ⟨by decide,
    (forced_fourcc_unavailable_fails [⟨7, [DRM_FORMAT_NV12]⟩]
      ⟨fourccmatching, true, DRM_FORMAT_XRGB8888, 0, 0⟩ isYUVmodel
      (fun _ => ⟨true, true, true, true⟩) true rfl (by decide)).1,
    (forced_fourcc_unavailable_fails [⟨7, [DRM_FORMAT_NV12]⟩]
      ⟨fourccmatching, true, DRM_FORMAT_XRGB8888, 0, 0⟩ isYUVmodel
      (fun _ => ⟨true, true, true, true⟩) true rfl (by decide)).2.1,
    (forced_fourcc_unavailable_fails [⟨7, [DRM_FORMAT_NV12]⟩]
      ⟨fourccmatching, true, DRM_FORMAT_XRGB8888, 0, 0⟩ isYUVmodel
      (fun _ => ⟨true, true, true, true⟩) true rfl (by decide)).2.2⟩

/-- Counterexample for C2: the source logical format is NV12 with no
override of any kind; the scan (of a plane supporting only YUYV) leaves
the NV12 catalog entry non-present while a present same-family entry
exists, so by the claim negotiation should continue to the
chroma-family tier and succeed — yet `ChromaNegotiation` fails. -/
theorem source_fourcc_nonpresent_entry_counterexample :
    ((scanPlanes false 0 [⟨1, [DRM_FORMAT_YUYV]⟩] (fourccmatching, 0)).1.find?
        (fun x => x.vlc == VLC_CODEC_NV12)).map (fun e => e.present) =
      some false ∧
    ((scanPlanes false 0 [⟨1, [DRM_FORMAT_YUYV]⟩] (fourccmatching, 0)).1.find?
        (fun x => (x.isYUV == true) && x.present)).isSome = true ∧
    (ChromaNegotiation [⟨1, [DRM_FORMAT_YUYV]⟩]
        ⟨fourccmatching, false, 0, VLC_CODEC_NV12, 0⟩ isYUVmodel).1 = false := by
  decide

/-- C2 as amended: with no hardware-format override (and `drm_fourcc`
still at its zero initialization), negotiation fails whenever the
desired logical format has a catalog entry that is not marked present —
whether or not an operator override requested that logical format — and
it reaches the chroma-family fallback tier only when no catalog entry
matches the desired logical format at all, in which case a present
same-family entry is adopted. -/
theorem nonpresent_entry_fails_negotiation (s : Sys) (isYUVfn : Nat → Bool)
    (hf : s.forced_drm_fourcc = false) (h0 : s.drm_fourcc = 0) :
    (∀ e, s.catalog.find? (fun x => x.vlc == s.vlc_fourcc) = some e →
      e.present = false → (negotiateTiers s isYUVfn).1 = false) ∧
    (s.catalog.find? (fun x => x.vlc == s.vlc_fourcc) = none →
      ∀ e, s.catalog.find?
          (fun x => (x.isYUV == isYUVfn s.vlc_fourcc) && x.present) = some e →
        (negotiateTiers s isYUVfn).1 = true) := by
  constructor
  · intro e hfind hpres
    simp [negotiateTiers, hf, hfind, hpres, h0]
  · intro hnone e hfind
    simp [negotiateTiers, hf, hnone, hfind]

/-- Witness for C2's amended statement: the concrete NV12-not-present
state from the counterexample satisfies its hypotheses and fails. -/
theorem nonpresent_entry_fails_negotiation_witness :
    ((⟨(scanPlanes false 0 [⟨1, [DRM_FORMAT_YUYV]⟩] (fourccmatching, 0)).1,
        false, 0, VLC_CODEC_NV12, 0⟩ : Sys).forced_drm_fourcc = false) ∧
    (negotiateTiers
      ⟨(scanPlanes false 0 [⟨1, [DRM_FORMAT_YUYV]⟩] (fourccmatching, 0)).1,
        false, 0, VLC_CODEC_NV12, 0⟩ isYUVmodel).1 = false :=
  ⟨rfl,
    (nonpresent_entry_fails_negotiation
      ⟨(scanPlanes false 0 [⟨1, [DRM_FORMAT_YUYV]⟩] (fourccmatching, 0)).1,
        false, 0, VLC_CODEC_NV12, 0⟩ isYUVmodel rfl rfl).1
      { drm := DRM_FORMAT_NV12, vlc := VLC_CODEC_NV12,
        plane_id := 0, present := false, isYUV := true }
      (by decide) rfl⟩

/-- C1 (code bug): on an input where the claim's premises hold — the
desired logical format I420 has no catalog entry, no present entry is
of the YUV family, and a present opposite-family entry (XRGB8888)
exists — negotiation returns failure instead of adopting the
opposite-family entry; moreover the last fallback loop of the source is
dead code: since the loop counter is not reset, the scan it performs
always runs over the empty tail of the catalog and finds nothing. -/
theorem opposite_family_fallback_dead :
    ((scanPlanes false 0 [⟨1, [DRM_FORMAT_XRGB8888]⟩]
        (fourccmatching, 0)).1.find? (fun x => x.vlc == VLC_CODEC_I420)) =
      none ∧
    ((scanPlanes false 0 [⟨1, [DRM_FORMAT_XRGB8888]⟩]
        (fourccmatching, 0)).1.find?
        (fun x => (x.isYUV == true) && x.present)) = none ∧
    (((scanPlanes false 0 [⟨1, [DRM_FORMAT_XRGB8888]⟩]
        (fourccmatching, 0)).1.find?
        (fun x => (x.isYUV == false) && x.present)).isSome = true) ∧
    (ChromaNegotiation [⟨1, [DRM_FORMAT_XRGB8888]⟩]
        ⟨fourccmatching, false, 0, VLC_CODEC_I420, 0⟩ isYUVmodel).1 = false ∧
    ∀ (yuvFlag : Bool) (cat : List FourccEntry),
      (tier4remainder cat).find?
        (fun e => ((!e.isYUV) != yuvFlag) && e.present) = none := by
  refine ⟨by decide, by decide, by decide, by decide, fun yuvFlag cat => ?_⟩
  simp [tier4remainder, List.drop_length]

/-- Presentation-cycle state touched by `Display`: the ring cursor
`front_buf`, the base addresses of the `MAXHWBUF` mappings, the
per-plane byte offsets, and the pixel pointers of the externally
visible staging picture (`sys->picture->p[i].p_pixels`), all addresses
modelled as naturals. -/
structure DispSys where
  front_buf : Nat
  map : List Nat
  offsets : List Nat
  picPixels : List Nat
deriving DecidableEq, Repr

/-- Transcription of `Display`: if `drmModeSetPlane` did not return
`drvSuccess`, report and return with nothing changed (the source also
asserts the failure is not `EINVAL`; diagnostics carry no state).
Otherwise advance `front_buf` modulo `MAXHWBUF` and repoint all
`PICTURE_PLANE_MAX` picture planes at the new front buffer's mapping
plus the per-plane offsets. -/
def Display (ret : Int) (s : DispSys) : DispSys :=
  if ret ≠ deviceRvalToInt .drvSuccess then
    s
  else
    let fb := (s.front_buf + 1) % MAXHWBUF
    { s with
      front_buf := fb,
      picPixels := (List.range PICTURE_PLANE_MAX).map
        (fun i => s.map.getD fb 0 + s.offsets.getD i 0) }

/-- C5: a failed plane commit leaves the whole session state unchanged:
the ring cursor is not advanced and the staging picture's plane
pointers are untouched, so the next `Prepare` writes into exactly the
buffer it would have written into before the failed commit. -/
theorem display_commit_failure_keeps_state (ret : Int) (s : DispSys)
    (h : ret ≠ deviceRvalToInt deviceRval.drvSuccess) :
    Display ret s = s := by
  simp [Display, h]

/-- Witness for C5: a commit returning -22 (`-EINVAL`) changes nothing
in a concrete session state. -/
theorem display_commit_failure_keeps_state_witness :
    ((-22 : Int) ≠ deviceRvalToInt deviceRval.drvSuccess) ∧
    Display (-22) ⟨0, [4096, 8192, 12288], [0, 2048, 0, 0], [4096, 6144, 0, 0, 0]⟩ =
      ⟨0, [4096, 8192, 12288], [0, 2048, 0, 0], [4096, 6144, 0, 0, 0]⟩ :=
  ⟨by decide,
    display_commit_failure_keeps_state (-22)
      ⟨0, [4096, 8192, 12288], [0, 2048, 0, 0], [4096, 6144, 0, 0, 0]⟩
      (by decide)⟩

/-- C8: a successful plane commit advances the ring cursor to
`(front_buf + 1) mod MAXHWBUF` and repoints every picture plane's pixel
pointer at the new front buffer's mapped base address plus that plane's
byte offset, so the next `Prepare` writes into the buffer that is not
currently scanned out. -/
theorem display_commit_success_advances_ring (s : DispSys) :
    (Display (deviceRvalToInt deviceRval.drvSuccess) s).front_buf =
      (s.front_buf + 1) % MAXHWBUF ∧
    ∀ i, i < PICTURE_PLANE_MAX →
      (Display (deviceRvalToInt deviceRval.drvSuccess) s).picPixels.getD i 0 =
        s.map.getD ((s.front_buf + 1) % MAXHWBUF) 0 + s.offsets.getD i 0 := by
  constructor
  · rfl
  · intro i hi
    have hi' : i < 5 := hi
    interval_cases i <;> rfl

/-- Witness for C8: committing from a concrete session state advances
the cursor and repoints plane 1. -/
theorem display_commit_success_advances_ring_witness :
    (1 : Nat) < PICTURE_PLANE_MAX ∧
    (Display (deviceRvalToInt deviceRval.drvSuccess)
        ⟨0, [4096, 8192, 12288], [0, 2048, 0, 0], [4096, 6144, 0, 0, 0]⟩).front_buf =
      ((0 : Nat) + 1) % MAXHWBUF ∧
    (Display (deviceRvalToInt deviceRval.drvSuccess)
        ⟨0, [4096, 8192, 12288], [0, 2048, 0, 0], [4096, 6144, 0, 0, 0]⟩).picPixels.getD 1 0 =
      ([4096, 8192, 12288] : List Nat).getD (((0 : Nat) + 1) % MAXHWBUF) 0 +
        ([0, 2048, 0, 0] : List Nat).getD 1 0 :=
  ⟨by decide,
    (display_commit_success_advances_ring
      ⟨0, [4096, 8192, 12288], [0, 2048, 0, 0], [4096, 6144, 0, 0, 0]⟩).1,
    (display_commit_success_advances_ring
      ⟨0, [4096, 8192, 12288], [0, 2048, 0, 0], [4096, 6144, 0, 0, 0]⟩).2 1
      (by decide)⟩

